import Mathlib

/-!
# AstroMeet: cache-aside controllers over a document store

A shallow embedding of the three controllers of the AstroMeet backend
(`controller/appointment.controller.js`, `controller/astro.controller.js`,
`controller/user.controller.js`) together with the Mongoose schemas they use
(`models/*.models.js`).

* The document store is a value of type `Store`: one list of documents per
  collection, in insertion order.  ObjectIds are kept in their string rendering
  (24 lowercase hexadecimal digits); a string that arrives in a request is cast
  by `castObjectId` before it reaches the store, and a cast that fails is the
  `CastError` the handler's `catch` answers with 500.  The ObjectId given to a
  newly constructed document is an argument of the handler.  The `timestamps`
  fields are not represented, numbers are whole numbers.
* The Redis server is a list of `CacheEntry` (key, TTL as passed to `setEx`,
  value).  A value is the JSON text produced by `JSON.stringify`, represented by
  the document it encodes, so `JSON.parse` of a cached value is that document and
  a cached value is never the empty string (it is always truthy).
* The `redis` module is the one whose client has `isOpen`, `connect` and
  `setEx`, which the astrologer and the user controller call.  On that client a
  command sent while the client is not open rejects at once, the reconnect
  strategy of the sources always asks for another attempt, so `connect()` and a
  command awaited on an open client settle only when the server is reachable,
  and there is no method `setex`.
* The appointment controller creates its client and never connects it: each of
  its commands rejects, a callback handed to `get` is never called, an
  unawaited `del` changes nothing.
* Every handler is a function from the `World` before the request to the
  response, `none` when none is ever sent, and the `World` after it.
* What the sources leave to their libraries is an argument of the handler: the
  ObjectId of a new document, the `Date` cast of the appointment schema,
  `bcrypt.hash`, and the store's answer to a filter on `email` for astrologers,
  a path the astrologer schema does not declare.
-/

set_option autoImplicit false

namespace AstroMeet

deriving instance DecidableEq for Except

/-! ## Documents -/

/-- An ObjectId in its string rendering. -/
abbrev Id := String

/-- A hexadecimal digit. -/
def isHexDigit (c : Char) : Bool :=
  c.isDigit || (decide ('a' ≤ c) && decide (c ≤ 'f')) || (decide ('A' ≤ c) && decide (c ≤ 'F'))

/-- The cast of a request string to an ObjectId: a string of 24 hexadecimal
digits is cast, to the ObjectId whose rendering is the string in lower case;
for any other string the cast fails. -/
def castObjectId (s : String) : Option Id :=
  if s.length == 24 && s.data.all isHexDigit then some (String.mk (s.data.map Char.toLower))
  else none

/-- Message of the `CastError` of a failed ObjectId cast. -/
def castError (value path model : String) : String :=
  "Cast to ObjectId failed for value \"" ++ value ++ "\" (type string) at path \"" ++ path ++
    "\" for model \"" ++ model ++ "\""

/-- A reference path of a document as it appears in JSON: the raw id, the
embedded document after `populate`, or `null` when `populate` found no target. -/
inductive Ref (α : Type) where
  | raw (id : Id)
  | populated (doc : α)
  | null
deriving DecidableEq, Repr

/-- Document of the `User` collection (`models/user.models.js`). -/
structure UserDoc where
  _id : Id
  name : String
  email : String
  password : String
  role : String
  assignedAstrologer : Option Id
deriving DecidableEq, Repr

/-- Document of the `Astro` collection (`models/astro.models.js`).  The schema
declares neither an `email` nor an `experience` path. -/
structure AstroDoc where
  _id : Id
  name : String
  curr_connections : Option Id
  isTopAstro : Bool
  flow_multiplier : Int
  specialization : Option String
  availability : Bool
deriving DecidableEq, Repr

/-- Document of the `Appointment` collection (`models/appointment.models.js`). -/
structure AppointmentDoc where
  _id : Id
  userId : Id
  astroId : Id
  appointmentDate : String
  status : String
deriving DecidableEq, Repr

/-- The three collections, and the number of queries and saves the handlers have
issued on the models so far. -/
structure Store where
  users : List UserDoc
  astros : List AstroDoc
  appointments : List AppointmentDoc
  calls : Nat
deriving DecidableEq, Repr

/-! ## JSON values: response bodies and cached snapshots -/

/-- Projection of a user embedded by `populate('userId', 'name email')`. -/
structure UserRef where
  _id : Id
  name : String
  email : String
deriving DecidableEq, Repr

/-- Projection of an astrologer embedded by
`populate('astroId', 'name specialization')`. -/
structure AstroRef where
  _id : Id
  name : String
  specialization : Option String
deriving DecidableEq, Repr

/-- JSON form of an appointment document. -/
structure AppointmentView where
  _id : Id
  userId : Ref UserRef
  astroId : Ref AstroRef
  appointmentDate : String
  status : String
deriving DecidableEq, Repr

/-- JSON form of an astrologer document. -/
structure AstroView where
  _id : Id
  name : String
  curr_connections : Option (Ref AppointmentDoc)
  isTopAstro : Bool
  flow_multiplier : Int
  specialization : Option String
  availability : Bool
deriving DecidableEq, Repr

/-- JSON form of a user document; `password` is absent after
`select('-password')`. -/
structure UserView where
  _id : Id
  name : String
  email : String
  password : Option String
  role : String
  assignedAstrologer : Option (Ref AstroDoc)
deriving DecidableEq, Repr

/-- The `{ id, name, email, role }` object of the batch-registration response. -/
structure UserSummary where
  id : Id
  name : String
  email : String
  role : String
deriving DecidableEq, Repr

/-- The JSON values the controllers send and cache. -/
inductive Json where
  | message (message : String)
  | failure (message : String) (error : String)
  | appointment (a : AppointmentView)
  | appointments (l : List AppointmentView)
  | astro (a : AstroView)
  | astros (l : List AstroView)
  | astroDeleted (message : String) (astrologer : AstroView)
  | astroBatch (message : String) (failed : List String) (astrologers : List AstroView)
  | user (u : UserView)
  | users (l : List UserView)
  | userUpdated (message : String) (user : UserView)
  | userBatch (message : String) (users : List UserSummary)
deriving DecidableEq, Repr

/-- What `res.status(code).json(body)` sends. -/
structure Response where
  status : Nat
  body : Json
deriving DecidableEq, Repr

/-! ## The cache -/

/-- One key of the Redis server. -/
structure CacheEntry where
  key : String
  ttl : Nat
  value : Json
deriving DecidableEq, Repr

/-- The state a request runs in.  `redisUp` tells whether the Redis server can be
reached; `astroOpen` and `userOpen` are the `isOpen` flags of the clients of the
astrologer and the user controller, true from the moment `connect()` is called.
The client of the appointment controller is never open. -/
structure World where
  store : Store
  cache : List CacheEntry
  redisUp : Bool
  astroOpen : Bool
  userOpen : Bool
deriving DecidableEq, Repr

/-- Value stored under `key`, if any (`GET`). -/
def cacheGet (c : List CacheEntry) (key : String) : Option Json :=
  (c.find? (fun e => e.key == key)).map (fun e => e.value)

/-- The entries after `DEL key`. -/
def cacheDel (c : List CacheEntry) (key : String) : List CacheEntry :=
  c.filter (fun e => !(e.key == key))

/-- The entries after `SETEX key ttl value`. -/
def cacheSetEx (c : List CacheEntry) (key : String) (ttl : Nat) (value : Json) :
    List CacheEntry :=
  { key := key, ttl := ttl, value := value } :: cacheDel c key

/-- The cache holds `v` under `key`: the server is reachable and has the entry. -/
def World.holds (w : World) (key : String) (v : Json) : Prop :=
  w.redisUp = true ∧ cacheGet w.cache key = some v

/-- The cache answers a lookup of `key` with a miss. -/
def World.misses (w : World) (key : String) : Prop :=
  w.redisUp = true ∧ cacheGet w.cache key = none

instance (w : World) (key : String) (v : Json) : Decidable (w.holds key v) := by
  unfold World.holds; infer_instance

instance (w : World) (key : String) : Decidable (w.misses key) := by
  unfold World.misses; infer_instance

/-! ## Store operations -/

/-- Count one query or save. -/
def Store.tick (s : Store) : Store := { s with calls := s.calls + 1 }

/-- `toJSON` of an appointment document that was not populated. -/
def AppointmentDoc.toJSON (a : AppointmentDoc) : AppointmentView :=
  { _id := a._id, userId := .raw a.userId, astroId := .raw a.astroId,
    appointmentDate := a.appointmentDate, status := a.status }

/-- The effect of `.populate('userId', 'name email')`. -/
def populateUserId (s : Store) (id : Id) : Ref UserRef :=
  match s.users.find? (fun u => u._id == id) with
  | some u => .populated { _id := u._id, name := u.name, email := u.email }
  | none => .null

/-- The effect of `.populate('astroId', 'name specialization')`. -/
def populateAstroId (s : Store) (id : Id) : Ref AstroRef :=
  match s.astros.find? (fun a => a._id == id) with
  | some a => .populated { _id := a._id, name := a.name, specialization := a.specialization }
  | none => .null

/-- An appointment document with both of its references populated. -/
def populateAppointment (s : Store) (a : AppointmentDoc) : AppointmentView :=
  { _id := a._id, userId := populateUserId s a.userId, astroId := populateAstroId s a.astroId,
    appointmentDate := a.appointmentDate, status := a.status }

/-- The lookup of `Appointment.findById(id)`, `findByIdAndUpdate(id, ...)` and
`findByIdAndDelete(id)`: the id is cast, then the document with that `_id` is
sought. -/
def Appointment.findById (s : Store) (id : String) : Except String (Option AppointmentDoc) :=
  match castObjectId id with
  | none => .error (castError id "_id" "Appointment")
  | some oid => .ok (s.appointments.find? (fun a => a._id == oid))

/-- The query `Appointment.find().populate('userId', 'name email')
.populate('astroId', 'name specialization')`. -/
def Appointment.findAll (s : Store) : List AppointmentView :=
  s.appointments.map (populateAppointment s)

/-- Replace the status of the document with the given id. -/
def setStatus (id : Id) (status : String) : List AppointmentDoc → List AppointmentDoc
  | [] => []
  | a :: rest =>
    if a._id == id then { a with status := status } :: rest
    else a :: setStatus id status rest

/-- Remove the first document with the given id. -/
def removeAppointment (id : Id) : List AppointmentDoc → List AppointmentDoc
  | [] => []
  | a :: rest => if a._id == id then rest else a :: removeAppointment id rest

/-! ## `controller/appointment.controller.js` -/

/-- Body of `POST /appointments/create`; every field may be missing.  A `status`
sent by the client is carried along, the handler does not read it. -/
structure AppointmentBody where
  userId : Option String
  astroId : Option String
  appointmentDate : Option String
  status : Option String
deriving DecidableEq, Repr

/-- The document `new Appointment(...)` / `save()` persists, or the validation
error: the three paths are `required`, `userId` and `astroId` are cast to
ObjectId and `appointmentDate` to `Date`.  `toDate d` is the rendering of the
date the string `d` denotes, `none` when it denotes no date. -/
def Appointment.create (toDate : String → Option String) (newId : Id) (b : AppointmentBody) :
    Except String AppointmentDoc :=
  match b.userId, b.astroId, b.appointmentDate with
  | some u, some a, some d =>
    match castObjectId u, castObjectId a, toDate d with
    | some uid, some aid, some date =>
      .ok { _id := newId, userId := uid, astroId := aid, appointmentDate := date,
            status := "pending" }
    | _, _, _ => .error "Appointment validation failed: Cast failed"
  | _, _, _ => .error "Appointment validation failed: Path is required."

/-- Handler `createAppointment`.  The unawaited `redisClient.del('allAppointments')`
rejects on the client that was never connected: the cache is left as it is. -/
def createAppointment (toDate : String → Option String) (newId : Id) (b : AppointmentBody)
    (w : World) : Option Response × World :=
  match Appointment.create toDate newId b with
  | .error e =>
    (some ⟨500, .failure "Failed to create appointment" e⟩, { w with store := w.store.tick })
  | .ok doc =>
    let s := { w.store.tick with appointments := w.store.appointments ++ [doc] }
    (some ⟨201, .appointment doc.toJSON⟩, { w with store := s })

/-- Handler `getAllAppointments`.  `redisClient.get('allAppointments', callback)`
rejects on the client that was never connected and the callback, which holds
every `res` call of the handler, is never called: no response is sent. -/
def getAllAppointments (w : World) : Option Response × World :=
  (none, w)

/-- Handler `getAppointmentById`.  As in `getAllAppointments` the callback handed
to `redisClient.get` is never called: no response is sent. -/
def getAppointmentById (_appointmentId : String) (w : World) : Option Response × World :=
  (none, w)

/-- Handler `updateAppointmentStatus`; `status` is `req.body.status`.  After the
store has been written the call `redisClient.setex(...)` throws, the client has
no such method, and the `catch` answers 500. -/
def updateAppointmentStatus (appointmentId : String) (status : Option String) (w : World) :
    Option Response × World :=
  match status with
  | none => (some ⟨400, .message "Invalid status value"⟩, w)
  | some st =>
    if !(["pending", "approved", "rejected"].contains st) then
      (some ⟨400, .message "Invalid status value"⟩, w)
    else
      match Appointment.findById w.store appointmentId with
      | .error e =>
        (some ⟨500, .failure "Failed to update appointment" e⟩, { w with store := w.store.tick })
      | .ok none =>
        (some ⟨404, .message "Appointment not found"⟩, { w with store := w.store.tick })
      | .ok (some a) =>
        let s := { w.store.tick with appointments := setStatus a._id st w.store.appointments }
        (some ⟨500, .failure "Failed to update appointment"
            "redisClient.setex is not a function"⟩, { w with store := s })

/-- Handler `deleteAppointment`.  The two unawaited `redisClient.del` calls reject
on the client that was never connected: the cache is left as it is. -/
def deleteAppointment (appointmentId : String) (w : World) : Option Response × World :=
  match Appointment.findById w.store appointmentId with
  | .error e =>
    (some ⟨500, .failure "Failed to delete appointment" e⟩, { w with store := w.store.tick })
  | .ok none =>
    (some ⟨404, .message "Appointment not found"⟩, { w with store := w.store.tick })
  | .ok (some a) =>
    let s := { w.store.tick with appointments := removeAppointment a._id w.store.appointments }
    (some ⟨200, .message "Appointment deleted successfully"⟩, { w with store := s })

/-! ## `controller/astro.controller.js` -/

/-- Body of `POST /astrologers/create` and `PUT /astrologers/:id`: the paths of the
schema, each of which may be missing; `flow_multiplier` is taken to be a whole
number. -/
structure AstroBody where
  name : Option String
  curr_connections : Option String
  isTopAstro : Option Bool
  flow_multiplier : Option Int
  specialization : Option String
  availability : Option Bool
deriving DecidableEq, Repr

/-- One element of `req.body.astrologers`; the handler reads these five fields. -/
structure AstroCandidate where
  name : Option String
  email : Option String
  specialization : Option String
  experience : Option Int
  isTopAstro : Option Bool
deriving DecidableEq, Repr

/-- `toJSON` of an astrologer document that was not populated. -/
def AstroDoc.toJSON (a : AstroDoc) : AstroView :=
  { _id := a._id, name := a.name, curr_connections := a.curr_connections.map .raw,
    isTopAstro := a.isTopAstro, flow_multiplier := a.flow_multiplier,
    specialization := a.specialization, availability := a.availability }

/-- The effect of `.populate('curr_connections')` on an astrologer document. -/
def populateAstro (s : Store) (a : AstroDoc) : AstroView :=
  { a.toJSON with
    curr_connections := a.curr_connections.map (fun id =>
      match s.appointments.find? (fun p => p._id == id) with
      | some p => .populated p
      | none => .null) }

/-- The `required: true` validator of a string path: the value must be present
and not empty. -/
def requiredString : Option String → Bool
  | some v => !(v == "")
  | none => false

/-- The cast of an optional reference path of a body to ObjectId. -/
def castRef (path model : String) : Option String → Except String (Option Id)
  | none => .ok none
  | some v =>
    match castObjectId v with
    | some oid => .ok (some oid)
    | none => .error (castError v path model)

/-- The document `new Astro(body)` / `save()` persists (schema defaults applied),
or the validation error: `name` is `required`, `curr_connections` is cast to
ObjectId. -/
def Astro.create (newId : Id) (b : AstroBody) : Except String AstroDoc :=
  if requiredString b.name then
    match castRef "curr_connections" "Astro" b.curr_connections with
    | .error e => .error e
    | .ok cc =>
      .ok { _id := newId, name := b.name.getD "", curr_connections := cc,
            isTopAstro := b.isTopAstro.getD false, flow_multiplier := b.flow_multiplier.getD 1,
            specialization := b.specialization, availability := b.availability.getD true }
  else .error "Astro validation failed: name: Path `name` is required."

/-- The lookup of `Astro.findById(id)`, `findByIdAndUpdate(id, ...)` and
`findByIdAndDelete(id)`: the id is cast, then the document with that `_id` is
sought. -/
def Astro.findById (s : Store) (id : String) : Except String (Option AstroDoc) :=
  match castObjectId id with
  | none => .error (castError id "_id" "Astro")
  | some oid => .ok (s.astros.find? (fun a => a._id == oid))

/-- The `$set` of the paths present in the body; `cc` is the cast of the body's
`curr_connections`. -/
def AstroDoc.patch (a : AstroDoc) (b : AstroBody) (cc : Option Id) : AstroDoc :=
  { _id := a._id,
    name := b.name.getD a.name,
    curr_connections := if cc.isSome then cc else a.curr_connections,
    isTopAstro := b.isTopAstro.getD a.isTopAstro,
    flow_multiplier := b.flow_multiplier.getD a.flow_multiplier,
    specialization := if b.specialization.isSome then b.specialization else a.specialization,
    availability := b.availability.getD a.availability }

/-- Replace the first document with the given id. -/
def replaceAstro (id : Id) (d : AstroDoc) : List AstroDoc → List AstroDoc
  | [] => []
  | a :: rest => if a._id == id then d :: rest else a :: replaceAstro id d rest

/-- Remove the first document with the given id. -/
def removeAstro (id : Id) : List AstroDoc → List AstroDoc
  | [] => []
  | a :: rest => if a._id == id then rest else a :: removeAstro id rest

/-- Function `ensureRedisConnection`: when the client is not open `connect()` is
called, which opens it.  The awaited `connect()` and every command awaited
after it settle once the server is reached; while it is unreachable the client
keeps retrying and the handler waits, so the handlers below go on only when
`redisUp` holds and otherwise send no response. -/
def ensureRedisConnection (w : World) : World :=
  if !w.astroOpen then { w with astroOpen := true } else w

/-- Outcome of one callback of the `map` in `generateAstrologers`: the lookup by
email against the store `s`, then construction and `save()`.  `emailMatches e a`
is the store's answer to the filter `{ email: e }` on the stored document `a`;
the schema declares no `email` path, so that answer is left to the store. -/
def settleAstro (emailMatches : Option String → AstroDoc → Bool) (s : Store) (newId : Id)
    (c : AstroCandidate) : Except String AstroDoc :=
  if s.astros.any (emailMatches c.email) then
    .error ("Astrologer with email " ++ c.email.getD "undefined" ++ " already exists.")
  else
    Astro.create newId
      { name := c.name, curr_connections := none, isTopAstro := c.isTopAstro,
        flow_multiplier := none, specialization := c.specialization, availability := none }

/-- The settled results of the whole batch, in input order.  Every callback
issues its `findOne` before any `save()` is issued, so each lookup sees the store
as it was when the request arrived; `genId i` is the ObjectId of the `i`-th
constructed document. -/
def settleAstros (emailMatches : Option String → AstroDoc → Bool) (s : Store) (genId : Nat → Id) :
    Nat → List AstroCandidate → List (Except String AstroDoc)
  | _, [] => []
  | i, c :: cs =>
    settleAstro emailMatches s (genId i) c :: settleAstros emailMatches s genId (i + 1) cs

/-- The values of the fulfilled results. -/
def fulfilled {α : Type} : List (Except String α) → List α
  | [] => []
  | .ok a :: rest => a :: fulfilled rest
  | .error _ :: rest => fulfilled rest

/-- The reason messages of the rejected results. -/
def rejected {α : Type} : List (Except String α) → List String
  | [] => []
  | .ok _ :: rest => rejected rest
  | .error e :: rest => e :: rejected rest

/-- Handler `generateAstrologers`; `astrologersData` is `req.body.astrologers`
when it is an array. -/
def generateAstrologers (emailMatches : Option String → AstroDoc → Bool) (genId : Nat → Id)
    (astrologersData : Option (List AstroCandidate)) (w : World) : Option Response × World :=
  match astrologersData with
  | none =>
    (some ⟨400, .message "Invalid input, expected an array of astrologer objects."⟩, w)
  | some [] =>
    (some ⟨400, .message "Invalid input, expected an array of astrologer objects."⟩, w)
  | some (c :: cs) =>
    let results := settleAstros emailMatches w.store genId 0 (c :: cs)
    let successfulAstrologers := fulfilled results
    let failedAstrologers := rejected results
    -- one findOne per candidate, one save per candidate whose lookup found nothing
    let saves := (c :: cs).countP (fun x => !w.store.astros.any (emailMatches x.email))
    let s : Store := { w.store with astros := w.store.astros ++ successfulAstrologers,
                                    calls := w.store.calls + (c :: cs).length + saves }
    let w1 := ensureRedisConnection { w with store := s }
    if !w1.redisUp then (none, w1)
    else
      (some ⟨201, .astroBatch
          (toString successfulAstrologers.length ++ " astrologers registered successfully")
          failedAstrologers (successfulAstrologers.map AstroDoc.toJSON)⟩,
        { w1 with cache := cacheDel w1.cache "allAstrologers" })

/-- Handler `createAstrologer`. -/
def createAstrologer (newId : Id) (b : AstroBody) (w : World) : Option Response × World :=
  match Astro.create newId b with
  | .error e =>
    (some ⟨500, .failure "Failed to create astrologer" e⟩, { w with store := w.store.tick })
  | .ok doc =>
    let s := { w.store.tick with astros := w.store.astros ++ [doc] }
    let w1 := ensureRedisConnection { w with store := s }
    if !w1.redisUp then (none, w1)
    else
      (some ⟨201, .astro doc.toJSON⟩, { w1 with cache := cacheDel w1.cache "allAstrologers" })

/-- JavaScript truthiness of the `isTopAstro` query parameter: present and not the
empty string. -/
def truthy : Option String → Bool
  | some v => !(v == "")
  | none => false

/-- The cache key `getAllAstrologers` derives from the query parameter. -/
def filterKey (isTopAstro : Option String) : String :=
  if truthy isTopAstro then "allAstrologers:isTopAstro:" ++ isTopAstro.getD ""
  else "allAstrologers"

/-- The store filter `getAllAstrologers` derives from the query parameter:
`none` is `{}`, `some b` is `{ isTopAstro: b }`. -/
def storeFilter (isTopAstro : Option String) : Option Bool :=
  if truthy isTopAstro then some (isTopAstro == some "true") else none

/-- The call `Astro.find(filter)`. -/
def Astro.find (s : Store) : Option Bool → List AstroDoc
  | none => s.astros
  | some b => s.astros.filter (fun a => a.isTopAstro == b)

/-- Handler `getAllAstrologers`; `isTopAstro` is `req.query.isTopAstro`. -/
def getAllAstrologers (isTopAstro : Option String) (w : World) : Option Response × World :=
  let w1 := ensureRedisConnection w
  if !w1.redisUp then (none, w1)
  else
    match cacheGet w1.cache (filterKey isTopAstro) with
    | some cachedData => (some ⟨200, cachedData⟩, w1)
    | none =>
      let astrologers := (Astro.find w1.store (storeFilter isTopAstro)).map (populateAstro w1.store)
      (some ⟨200, .astros astrologers⟩,
        { w1 with store := w1.store.tick,
                  cache := cacheSetEx w1.cache (filterKey isTopAstro) 3600 (.astros astrologers) })

/-- Handler `getAstrologerById`. -/
def getAstrologerById (astroId : String) (w : World) : Option Response × World :=
  let w1 := ensureRedisConnection w
  if !w1.redisUp then (none, w1)
  else
    match cacheGet w1.cache ("astrologer:" ++ astroId) with
    | some cachedData => (some ⟨200, cachedData⟩, w1)
    | none =>
      match Astro.findById w1.store astroId with
      | .error e =>
        (some ⟨500, .failure "Error retrieving astrologer" e⟩, { w1 with store := w1.store.tick })
      | .ok none =>
        (some ⟨404, .message "Astrologer not found"⟩, { w1 with store := w1.store.tick })
      | .ok (some a) =>
        let astrologer := populateAstro w1.store a
        (some ⟨200, .astro astrologer⟩,
          { w1 with store := w1.store.tick,
                    cache := cacheSetEx w1.cache ("astrologer:" ++ astroId) 3600
                      (.astro astrologer) })

/-- Handler `updateAstrologer`.  With `runValidators` an update that sets `name`
to the empty string, or `curr_connections` to a string that is no ObjectId, is
refused before the store is written. -/
def updateAstrologer (astroId : String) (b : AstroBody) (w : World) : Option Response × World :=
  if b.name == some "" then
    (some ⟨500, .failure "Failed to update astrologer"
        "Validation failed: name: Path `name` is required."⟩, { w with store := w.store.tick })
  else
    match castRef "curr_connections" "Astro" b.curr_connections,
        Astro.findById w.store astroId with
    | .error e, _ =>
      (some ⟨500, .failure "Failed to update astrologer" e⟩, { w with store := w.store.tick })
    | .ok _, .error e =>
      (some ⟨500, .failure "Failed to update astrologer" e⟩, { w with store := w.store.tick })
    | .ok _, .ok none =>
      (some ⟨404, .message "Astrologer not found"⟩, { w with store := w.store.tick })
    | .ok cc, .ok (some a) =>
      let updatedAstrologer := a.patch b cc
      let s := { w.store.tick with astros := replaceAstro a._id updatedAstrologer w.store.astros }
      let w1 := ensureRedisConnection { w with store := s }
      if !w1.redisUp then (none, w1)
      else
        (some ⟨200, .astro updatedAstrologer.toJSON⟩,
          { w1 with cache := cacheDel (cacheDel w1.cache ("astrologer:" ++ astroId))
                      "allAstrologers" })

/-- Handler `deleteAstrologer`. -/
def deleteAstrologer (astroId : String) (w : World) : Option Response × World :=
  match Astro.findById w.store astroId with
  | .error e =>
    (some ⟨500, .failure "Failed to delete astrologer" e⟩, { w with store := w.store.tick })
  | .ok none =>
    (some ⟨404, .message "Astrologer not found"⟩, { w with store := w.store.tick })
  | .ok (some a) =>
    let s := { w.store.tick with astros := removeAstro a._id w.store.astros }
    let w1 := ensureRedisConnection { w with store := s }
    if !w1.redisUp then (none, w1)
    else
      (some ⟨200, .astroDeleted "Astrologer deleted successfully" a.toJSON⟩,
        { w1 with cache := cacheDel (cacheDel w1.cache ("astrologer:" ++ astroId))
                    "allAstrologers" })

/-! ## `controller/user.controller.js` -/

/-- Element of `req.body.users`, and body of `PUT /users/:id`. -/
structure UserBody where
  name : Option String
  email : Option String
  password : Option String
  role : Option String
deriving DecidableEq, Repr

/-- `toJSON` of a user document that was not populated. -/
def UserDoc.toJSON (u : UserDoc) : UserView :=
  { _id := u._id, name := u.name, email := u.email, password := some u.password,
    role := u.role, assignedAstrologer := u.assignedAstrologer.map .raw }

/-- The effect of `.populate('assignedAstrologer')` on a user document. -/
def populateUser (s : Store) (u : UserDoc) : UserView :=
  { u.toJSON with
    assignedAstrologer := u.assignedAstrologer.map (fun id =>
      match s.astros.find? (fun a => a._id == id) with
      | some a => .populated a
      | none => .null) }

/-- The lookup of `User.findById(id)` and `findByIdAndDelete(id)`: the id is
cast, then the document with that `_id` is sought. -/
def User.findById (s : Store) (id : String) : Except String (Option UserDoc) :=
  match castObjectId id with
  | none => .error (castError id "_id" "User")
  | some oid => .ok (s.users.find? (fun u => u._id == oid))

/-- The call `User.findOne({ email })`; a missing email matches no document. -/
def User.findOne (s : Store) : Option String → Option UserDoc
  | some e => s.users.find? (fun u => u.email == e)
  | none => none

/-- The `enum: ["user", "admin"]` validator of `role`. -/
def validRole (r : String) : Bool := ["user", "admin"].contains r

/-- Validation and the unique index on `email` at `save()` of a new user against
the users stored at that moment; `hashedPassword` is the hashed password. -/
def User.create (users : List UserDoc) (newId : Id) (b : UserBody) (hashedPassword : String) :
    Except String UserDoc :=
  if !requiredString b.name then .error "User validation failed: name: Path `name` is required."
  else if !requiredString b.email then
    .error "User validation failed: email: Path `email` is required."
  else if !requiredString (some hashedPassword) then
    .error "User validation failed: password: Path `password` is required."
  else if !validRole (b.role.getD "user") then
    .error "User validation failed: role: is not a valid enum value for path `role`."
  else if users.any (fun u => u.email == b.email.getD "") then
    .error "E11000 duplicate key error collection: users index: email_1"
  else
    .ok { _id := newId, name := b.name.getD "", email := b.email.getD "",
          password := hashedPassword, role := b.role.getD "user", assignedAstrologer := none }

/-- Function `initRedis`: nothing when the client is open, otherwise a new client
is created and `connect()` is called, which opens it.  As in the astrologer
controller the awaited `connect()` and the commands awaited on the open client
settle once the server is reached; while it is unreachable the handler waits
and sends no response. -/
def initRedis (w : World) : World :=
  if w.userOpen then w else { w with userOpen := true }

/-- The steps of one callback of the `map` in `generateUsers` before `save()`:
the lookup by email against the store `s`, then the hashing of the password.
The result is the hashed password. -/
def prepareUser (hash : String → String) (s : Store) (b : UserBody) : Except String String :=
  if (User.findOne s b.email).isSome then
    .error ("User with email " ++ b.email.getD "undefined" ++ " already exists.")
  else
    match b.password with
    | none => .error "Illegal arguments: undefined, number"
    | some p => .ok (hash p)

/-- The `save()` calls of the batch, in input order, each against the users
stored when it runs (`acc` holds the users saved so far by this batch). -/
def saveUsers (hash : String → String) (s : Store) (genId : Nat → Id) :
    Nat → List UserDoc → List UserBody → List (Except String UserDoc)
  | _, _, [] => []
  | i, acc, b :: bs =>
    match prepareUser hash s b with
    | .error e => .error e :: saveUsers hash s genId (i + 1) acc bs
    | .ok h =>
      match User.create (s.users ++ acc) (genId i) b h with
      | .error e => .error e :: saveUsers hash s genId (i + 1) acc bs
      | .ok u => .ok u :: saveUsers hash s genId (i + 1) (acc ++ [u]) bs

/-- The reason `Promise.all` rejects with: the first rejection in time.  A
callback rejected before its `save()` (lookup or hashing) settles before any
`save()` does. -/
def firstRejection (hash : String → String) (s : Store) (bs : List UserBody)
    (results : List (Except String UserDoc)) : Option String :=
  match rejected (bs.map (prepareUser hash s)) with
  | e :: _ => some e
  | [] => (rejected results).head?

/-- Handler `generateUsers`; `usersData` is `req.body.users` when it is an array,
`hash` is `bcrypt.hash(·, 10)`. -/
def generateUsers (hash : String → String) (genId : Nat → Id)
    (usersData : Option (List UserBody)) (w : World) : Option Response × World :=
  match usersData with
  | none => (some ⟨400, .message "Invalid input, expected an array of user objects."⟩, w)
  | some [] => (some ⟨400, .message "Invalid input, expected an array of user objects."⟩, w)
  | some (b :: bs) =>
    let results := saveUsers hash w.store genId 0 [] (b :: bs)
    let createdUsers := fulfilled results
    -- one findOne per candidate, one save per candidate that reached it
    let saves := (b :: bs).countP (fun x => (prepareUser hash w.store x).toBool)
    let s : Store := { w.store with users := w.store.users ++ createdUsers,
                                    calls := w.store.calls + (b :: bs).length + saves }
    let w1 := { w with store := s }
    match firstRejection hash w.store (b :: bs) results with
    | some e => (some ⟨500, .failure "Error generating users" e⟩, w1)
    | none =>
      if w1.userOpen && !w1.redisUp then (none, w1)
      else
        let c := if w1.userOpen then cacheDel w1.cache "allUsers" else w1.cache
        (some ⟨201, .userBatch
            (toString createdUsers.length ++ " users registered successfully")
            (createdUsers.map (fun u =>
              { id := u._id, name := u.name, email := u.email, role := u.role }))⟩,
          { w1 with cache := c })

/-- Handler `getUserById`. -/
def getUserById (userId : String) (w : World) : Option Response × World :=
  let w1 := initRedis w
  if !w1.redisUp then (none, w1)
  else
    match cacheGet w1.cache ("user:" ++ userId) with
    | some cachedUser => (some ⟨200, cachedUser⟩, w1)
    | none =>
      match User.findById w1.store userId with
      | .error e =>
        (some ⟨500, .failure "Error fetching user" e⟩, { w1 with store := w1.store.tick })
      | .ok none => (some ⟨404, .message "User not found"⟩, { w1 with store := w1.store.tick })
      | .ok (some u) =>
        let user := populateUser w1.store u
        (some ⟨200, .user user⟩,
          { w1 with store := w1.store.tick,
                    cache := cacheSetEx w1.cache ("user:" ++ userId) 3600 (.user user) })

/-- Handler `getAllUsers`. -/
def getAllUsers (w : World) : Option Response × World :=
  let w1 := initRedis w
  if !w1.redisUp then (none, w1)
  else
    match cacheGet w1.cache "allUsers" with
    | some cachedUsers => (some ⟨200, cachedUsers⟩, w1)
    | none =>
      let users := w1.store.users.map (fun u => { populateUser w1.store u with password := none })
      (some ⟨200, .users users⟩,
        { w1 with store := w1.store.tick,
                  cache := cacheSetEx w1.cache "allUsers" 3600 (.users users) })

/-- The assignments `if (name) user.name = name` and the like: a field is taken
from the body when it is present and not empty; `hash` is `bcrypt.hash(·, 10)`. -/
def UserDoc.merge (hash : String → String) (u : UserDoc) (b : UserBody) : UserDoc :=
  { _id := u._id,
    name := if truthy b.name then b.name.getD "" else u.name,
    email := if truthy b.email then b.email.getD "" else u.email,
    password := if truthy b.password then hash (b.password.getD "") else u.password,
    role := if truthy b.role then b.role.getD "" else u.role,
    assignedAstrologer := u.assignedAstrologer }

/-- Replace the first document with the given id. -/
def replaceUser (id : Id) (d : UserDoc) : List UserDoc → List UserDoc
  | [] => []
  | u :: rest => if u._id == id then d :: rest else u :: replaceUser id d rest

/-- Remove the first document with the given id. -/
def removeUser (id : Id) : List UserDoc → List UserDoc
  | [] => []
  | u :: rest => if u._id == id then rest else u :: removeUser id rest

/-- Validation and the unique index at `user.save()` of a merged document: only
the modified paths are checked. -/
def User.saveCheck (users : List UserDoc) (old new : UserDoc) : Except String Unit :=
  if new.role != old.role && !validRole new.role then
    .error "User validation failed: role: is not a valid enum value for path `role`."
  else if new.email != old.email && users.any (fun u => u._id != old._id && u.email == new.email) then
    .error "E11000 duplicate key error collection: users index: email_1"
  else .ok ()

/-- Handler `updateUser`.  The setEx and the del are awaited when the client is
open. -/
def updateUser (hash : String → String) (userId : String) (b : UserBody) (w : World) :
    Option Response × World :=
  match User.findById w.store userId with
  | .error e => (some ⟨500, .failure "Error updating user" e⟩, { w with store := w.store.tick })
  | .ok none => (some ⟨404, .message "User not found"⟩, { w with store := w.store.tick })
  | .ok (some u) =>
    let user := u.merge hash b
    match User.saveCheck w.store.users u user with
    | .error e =>
      (some ⟨500, .failure "Error updating user" e⟩,
        { w with store := w.store.tick.tick })
    | .ok _ =>
      let s := { w.store.tick.tick with users := replaceUser u._id user w.store.users }
      let w1 := { w with store := s }
      if w1.userOpen && !w1.redisUp then (none, w1)
      else
        let c := if w1.userOpen then
            cacheDel (cacheSetEx w1.cache ("user:" ++ userId) 3600 (.user user.toJSON)) "allUsers"
          else w1.cache
        (some ⟨200, .userUpdated "User updated successfully" user.toJSON⟩, { w1 with cache := c })

/-- Handler `deleteUser`.  The two dels are awaited when the client is open. -/
def deleteUser (userId : String) (w : World) : Option Response × World :=
  match User.findById w.store userId with
  | .error e => (some ⟨500, .failure "Error deleting user" e⟩, { w with store := w.store.tick })
  | .ok none => (some ⟨404, .message "User not found"⟩, { w with store := w.store.tick })
  | .ok (some u) =>
    let s := { w.store.tick with users := removeUser u._id w.store.users }
    let w1 := { w with store := s }
    if w1.userOpen && !w1.redisUp then (none, w1)
    else
      let c := if w1.userOpen then
          cacheDel (cacheDel w1.cache ("user:" ++ userId)) "allUsers"
        else w1.cache
      (some ⟨200, .message "User deleted successfully"⟩, { w1 with cache := c })

/-! ## The reads, by entity -/

/-- The six cached reads of the three controllers. -/
inductive Read where
  | userById (id : Id)
  | allUsers
  | astrologerById (id : Id)
  | allAstrologers (isTopAstro : Option String)
  | appointmentById (id : Id)
  | allAppointments
deriving DecidableEq, Repr

/-- The handler a read is routed to. -/
def Read.run : Read → World → Option Response × World
  | .userById id => getUserById id
  | .allUsers => getAllUsers
  | .astrologerById id => getAstrologerById id
  | .allAstrologers q => getAllAstrologers q
  | .appointmentById id => getAppointmentById id
  | .allAppointments => getAllAppointments

/-- The cache key the handler of a read looks up. -/
def Read.key : Read → String
  | .userById id => "user:" ++ id
  | .allUsers => "allUsers"
  | .astrologerById id => "astrologer:" ++ id
  | .allAstrologers q => filterKey q
  | .appointmentById id => "appointment:" ++ id
  | .allAppointments => "allAppointments"

/-- The three kinds of entity. -/
inductive Entity where
  | user
  | astrologer
  | appointment
deriving DecidableEq, Repr

/-- The get-by-id read of an entity. -/
def Entity.byId : Entity → Id → Read
  | .user, id => .userById id
  | .astrologer, id => .astrologerById id
  | .appointment, id => .appointmentById id

/-- Whether the lookup by id of the entity finds a record in the store. -/
def Entity.stored : Entity → Store → String → Bool
  | .user, s, id => (User.findById s id).toOption.join.isSome
  | .astrologer, s, id => (Astro.findById s id).toOption.join.isSome
  | .appointment, s, id => (Appointment.findById s id).toOption.join.isSome

/-- Whether the store answers the lookup `findOne({ email })` of a candidate
with a document: the candidate's email is already taken. -/
def emailTaken (emailMatches : Option String → AstroDoc → Bool) (s : Store)
    (c : AstroCandidate) : Bool :=
  s.astros.any (emailMatches c.email)

/-! ## Sample data -/

/-- A world with an empty store and an empty, reachable cache. -/
def emptyWorld : World :=
  { store := { users := [], astros := [], appointments := [], calls := 0 },
    cache := [], redisUp := true, astroOpen := true, userOpen := true }

/-- A stored user. -/
def sampleUser : UserDoc :=
  { _id := "65a1b2c3d4e5f60718293a01", name := "Uma", email := "uma@example.com",
    password := "h", role := "user", assignedAstrologer := none }

/-- A stored top astrologer. -/
def sampleAstro : AstroDoc :=
  { _id := "65a1b2c3d4e5f60718293a02", name := "Asha", curr_connections := none,
    isTopAstro := true, flow_multiplier := 1, specialization := some "vedic",
    availability := true }

/-- A stored appointment of `sampleUser` with `sampleAstro`. -/
def sampleAppointment : AppointmentDoc :=
  { _id := "65a1b2c3d4e5f60718293a03", userId := sampleUser._id, astroId := sampleAstro._id,
    appointmentDate := "2025-01-01T00:00:00.000Z", status := "pending" }

/-- A world that stores `sampleAppointment` and whose cache holds a snapshot
under its by-id key and a list under `allAppointments`. -/
def cachedWorld : World :=
  { emptyWorld with
    store := { users := [], astros := [], appointments := [sampleAppointment], calls := 0 },
    cache := [⟨"appointment:" ++ sampleAppointment._id, 3600,
                .appointment sampleAppointment.toJSON⟩,
              ⟨"allAppointments", 3600, .appointments [sampleAppointment.toJSON]⟩] }

/-- A world that stores `sampleAstro` and whose cache holds the list of top
astrologers, as left by `getAllAstrologers` with `isTopAstro=true`. -/
def topListCachedWorld : World :=
  (getAllAstrologers (some "true")
    { emptyWorld with
      store := { users := [], astros := [sampleAstro], appointments := [], calls := 0 } }).2

/-- A body that carries only a name. -/
def nameBody : AstroBody :=
  { name := some "Asha Rao", curr_connections := none, isTopAstro := none,
    flow_multiplier := none, specialization := none, availability := none }

/-- The ObjectIds handed to the documents of a sample batch. -/
def sampleIds (i : Nat) : Id :=
  ["65a1b2c3d4e5f60718293b00", "65a1b2c3d4e5f60718293b01", "65a1b2c3d4e5f60718293b02"].getD i
    "65a1b2c3d4e5f60718293bff"

/-- A stand-in for `bcrypt.hash(·, 10)` in evaluations. -/
def sampleHash (p : String) : String := "hashed:" ++ p

/-- A stand-in for the `Date` cast in evaluations: it knows one date. -/
def sampleDate (d : String) : Option String :=
  if d == "2025-01-01" then some "2025-01-01T00:00:00.000Z" else none

/-- The store answers no email lookup on astrologers with a document. -/
def noEmailMatch (_ : Option String) (_ : AstroDoc) : Bool := false

/-- The answers of a store in which the document of `sampleAstro` carries the
email `asha@example.com` beside the paths of the schema. -/
def sampleEmailMatch (e : Option String) (a : AstroDoc) : Bool :=
  e == some "asha@example.com" && a._id == sampleAstro._id

/-- An astrologer candidate without a name. -/
def namelessCandidate : AstroCandidate :=
  { name := none, email := some "new@example.com", specialization := none,
    experience := none, isTopAstro := none }

/-- An astrologer candidate with the email of a stored document. -/
def takenCandidate : AstroCandidate :=
  { name := some "Asha", email := some "asha@example.com", specialization := none,
    experience := some 3, isTopAstro := some true }

/-- An astrologer candidate with a name and a new email. -/
def freshCandidate : AstroCandidate :=
  { name := some "Meera", email := some "meera@example.com", specialization := some "tarot",
    experience := none, isTopAstro := none }

/-- A batch of two users: the first has the email of `sampleUser`, the second a
new one. -/
def mixedUsers : List UserBody :=
  [{ name := some "Uma Two", email := some "uma@example.com", password := some "pw",
     role := none },
   { name := some "Ravi", email := some "ravi@example.com", password := some "pw",
     role := none }]

/-- A world that stores `sampleUser` and `sampleAstro`, with an empty cache. -/
def peopleWorld : World :=
  { emptyWorld with
    store := { users := [sampleUser], astros := [sampleAstro], appointments := [], calls := 0 } }

/-- The world `peopleWorld` with the Redis server out of reach; both clients have
called `connect()`. -/
def peopleDownWorld : World := { peopleWorld with redisUp := false }

/-- A booking of `sampleAstro` by `sampleUser` without a date, carrying a status
of its own. -/
def undatedBooking : AppointmentBody :=
  { userId := some sampleUser._id, astroId := some sampleAstro._id, appointmentDate := none,
    status := some "approved" }

/-- A booking of `sampleAstro` by `sampleUser`, carrying a status of its own. -/
def sampleBooking : AppointmentBody :=
  { userId := some sampleUser._id, astroId := some sampleAstro._id,
    appointmentDate := some "2025-01-01", status := some "approved" }

/-- A body that sets only a role outside the schema's enum. -/
def badRoleBody : UserBody :=
  { name := none, email := none, password := none, role := some "superadmin" }

/-- A body that sets a name and a role and leaves email and password out. -/
def promoteBody : UserBody :=
  { name := some "Uma Devi", email := none, password := none, role := some "admin" }

/-- The world after `sampleUser` has booked `sampleAstro`: the store holds
`sampleAppointment`. -/
def bookedWorld : World :=
  (createAppointment sampleDate sampleAppointment._id sampleBooking peopleWorld).2

/-- The first five characters of a key. -/
def keyHead (s : String) : List Char := s.data.take 5

/-! ## Lemmas on the cache and on keys -/

theorem cacheGet_cacheDel_self (c : List CacheEntry) (k : String) :
    cacheGet (cacheDel c k) k = none := by
  induction c with
  | nil => rfl
  | cons e rest ih =>
    unfold cacheGet cacheDel at *
    by_cases he : e.key = k <;> simp_all [List.filter_cons, List.find?_cons]

theorem cacheGet_cacheDel_ne (c : List CacheEntry) (k k' : String) (h : k' ≠ k) :
    cacheGet (cacheDel c k) k' = cacheGet c k' := by
  induction c with
  | nil => rfl
  | cons e rest ih =>
    unfold cacheGet cacheDel at *
    by_cases he : e.key = k
    · have : ¬ e.key = k' := fun h2 => h (h2.symm.trans he)
      simp_all [List.filter_cons, List.find?_cons]
    · by_cases he2 : e.key = k' <;> simp_all [List.filter_cons, List.find?_cons]

theorem ensureRedisConnection_store (w : World) : (ensureRedisConnection w).store = w.store := by
  unfold ensureRedisConnection; split <;> rfl

theorem ensureRedisConnection_cache (w : World) : (ensureRedisConnection w).cache = w.cache := by
  unfold ensureRedisConnection; split <;> rfl

theorem ensureRedisConnection_redisUp (w : World) :
    (ensureRedisConnection w).redisUp = w.redisUp := by
  unfold ensureRedisConnection; split <;> rfl

theorem initRedis_store (w : World) : (initRedis w).store = w.store := by
  unfold initRedis; split <;> rfl

theorem initRedis_cache (w : World) : (initRedis w).cache = w.cache := by
  unfold initRedis; split <;> rfl

theorem initRedis_redisUp (w : World) : (initRedis w).redisUp = w.redisUp := by
  unfold initRedis; split <;> rfl

theorem append_left_cancel (p a b : String) (h : p ++ a = p ++ b) : a = b := by
  have hd := congrArg String.data h
  simp only [String.data_append] at hd
  exact String.ext (List.append_cancel_left hd)

theorem allAstrologers_ne_filtered (q : String) :
    "allAstrologers" ≠ "allAstrologers:isTopAstro:" ++ q := by
  intro h
  have hl := congrArg String.length h
  have h1 : "allAstrologers".length = 14 := by decide
  have h2 : "allAstrologers:isTopAstro:".length = 26 := by decide
  rw [String.length_append, h1, h2] at hl
  omega

theorem filterKey_truthy (q : Option String) (h : truthy q = true) :
    filterKey q = "allAstrologers:isTopAstro:" ++ q.getD "" := by
  simp [filterKey, h]

theorem filterKey_falsy (q : Option String) (h : truthy q = false) :
    filterKey q = "allAstrologers" := by
  simp [filterKey, h]

theorem storeFilter_truthy (q : Option String) (h : truthy q = true) :
    storeFilter q = some (q == some "true") := by
  simp [storeFilter, h]

theorem storeFilter_falsy (q : Option String) (h : truthy q = false) :
    storeFilter q = none := by
  simp [storeFilter, h]

theorem settleAstro_taken (em : Option String → AstroDoc → Bool) (s : Store) (newId : Id)
    (c : AstroCandidate) (h : emailTaken em s c = true) :
    ∃ e, settleAstro em s newId c = .error e := by
  unfold emailTaken at h
  simp [settleAstro, h]

theorem settleAstro_free (em : Option String → AstroDoc → Bool) (s : Store) (newId : Id)
    (c : AstroCandidate) (h : emailTaken em s c = false) (hn : requiredString c.name = true) :
    ∃ d, settleAstro em s newId c = .ok d := by
  unfold emailTaken at h
  simp [settleAstro, h, Astro.create, hn, castRef]

theorem settleAstros_counts (em : Option String → AstroDoc → Bool) (s : Store) (genId : Nat → Id)
    (cs : List AstroCandidate) :
    ∀ i, (∀ c ∈ cs, emailTaken em s c = false → requiredString c.name = true) →
      (fulfilled (settleAstros em s genId i cs)).length + cs.countP (emailTaken em s) = cs.length ∧
      (rejected (settleAstros em s genId i cs)).length = cs.countP (emailTaken em s) := by
  induction cs with
  | nil => intro i _; simp [settleAstros, fulfilled, rejected]
  | cons c cs ih =>
    intro i hv
    obtain ⟨h1, h2⟩ := ih (i + 1) (fun c' hc' => hv c' (List.mem_cons_of_mem _ hc'))
    cases ht : emailTaken em s c with
    | true =>
      obtain ⟨e, he⟩ := settleAstro_taken em s (genId i) c ht
      have hc : (c :: cs).countP (emailTaken em s) = cs.countP (emailTaken em s) + 1 := by
        simp [List.countP_cons, ht]
      rw [hc]
      simp only [settleAstros, he, fulfilled, rejected, List.length_cons]
      constructor <;> omega
    | false =>
      obtain ⟨d, hd⟩ := settleAstro_free em s (genId i) c ht (hv c (List.mem_cons_self _ _) ht)
      have hc : (c :: cs).countP (emailTaken em s) = cs.countP (emailTaken em s) := by
        simp [List.countP_cons, ht]
      rw [hc]
      simp only [settleAstros, hd, fulfilled, rejected, List.length_cons]
      constructor <;> omega

theorem keyHead_append (p x : String) (h : 5 ≤ p.length) : keyHead (p ++ x) = keyHead p := by
  unfold keyHead
  rw [String.data_append]
  exact List.take_append_of_le_length h

theorem ne_of_keyHead_ne (a b : String) (h : keyHead a ≠ keyHead b) : a ≠ b :=
  fun e => h (congrArg keyHead e)

theorem find_replaceUser (id : Id) (d : UserDoc) (hd : d._id = id) (users : List UserDoc)
    (u : UserDoc) (hfind : users.find? (fun x => x._id == id) = some u) :
    (replaceUser id d users).find? (fun x => x._id == id) = some d := by
  induction users with
  | nil => simp at hfind
  | cons x rest ih =>
    by_cases hx : x._id = id
    · simp [replaceUser, hx, hd]
    · have hrest : rest.find? (fun x => x._id == id) = some u := by
        simpa [List.find?_cons, hx] using hfind
      simp [replaceUser, hx, List.find?_cons, ih hrest]

theorem userFindById_ok (s : Store) (id : String) (u : UserDoc)
    (h : User.findById s id = .ok (some u)) :
    ∃ oid, castObjectId id = some oid ∧ s.users.find? (fun x => x._id == oid) = some u ∧
      u._id = oid := by
  unfold User.findById at h
  cases hc : castObjectId id with
  | none => simp [hc] at h
  | some oid =>
    simp only [hc, Except.ok.injEq] at h
    refine ⟨oid, rfl, h, ?_⟩
    have := List.find?_some h
    simpa using this

theorem astroFindById_ok (s : Store) (id : String) (a : AstroDoc)
    (h : Astro.findById s id = .ok (some a)) :
    ∃ oid, castObjectId id = some oid ∧ s.astros.find? (fun x => x._id == oid) = some a ∧
      a._id = oid := by
  unfold Astro.findById at h
  cases hc : castObjectId id with
  | none => simp [hc] at h
  | some oid =>
    simp only [hc, Except.ok.injEq] at h
    refine ⟨oid, rfl, h, ?_⟩
    have := List.find?_some h
    simpa using this

theorem updateUser_store (hash : String → String) (userId : String) (b : UserBody) (w : World)
    (u : UserDoc) (hfind : User.findById w.store userId = .ok (some u))
    (hsave : User.saveCheck w.store.users u (u.merge hash b) = .ok ()) :
    (updateUser hash userId b w).2.store.users =
      replaceUser u._id (u.merge hash b) w.store.users := by
  unfold updateUser
  simp only [hfind, hsave]
  split <;> rfl

/-! ## Theorems -/

/-- C1: whatever the appointment id, the store and the cache, a request whose
status is absent or is not one of pending, approved, rejected is answered with
400 and the world after it is the world before it: the store (its operation
counter included) and every cache entry are untouched. -/
theorem updateAppointmentStatus_invalid_rejected (appointmentId : Id) (status : Option String)
    (w : World) (h : ∀ st, status = some st → st ∉ ["pending", "approved", "rejected"]) :
    updateAppointmentStatus appointmentId status w =
      (some ⟨400, .message "Invalid status value"⟩, w) := by
  unfold updateAppointmentStatus
  cases status with
  | none => rfl
  | some st =>
    have hst := h st rfl
    have hc : (["pending", "approved", "rejected"].contains st) = false := by
      simpa using hst
    simp only [hc]
    rfl

theorem updateAppointmentStatus_invalid_rejected_witness :
    (∀ st, some "cancelled" = some st → st ∉ ["pending", "approved", "rejected"]) ∧
    updateAppointmentStatus "p1" (some "cancelled") cachedWorld =
      (some ⟨400, .message "Invalid status value"⟩, cachedWorld) :=
  ⟨by intro st h; cases h; decide,
   updateAppointmentStatus_invalid_rejected "p1" (some "cancelled") cachedWorld
     (by intro st h; cases h; decide)⟩

/-- Cache hit on the reads of the user and the astrologer controller: when the
cache holds a value under the key the read looks up, the response is 200 with
exactly that value, the store is left as it was and so are the cache entries. -/
theorem user_astro_read_hit (r : Read) (w : World) (v : Json) (h : w.holds r.key v)
    (hr : ∀ id, r ≠ .appointmentById id) (hl : r ≠ .allAppointments) :
    (r.run w).1 = some ⟨200, v⟩ ∧ (r.run w).2.store = w.store ∧
      (r.run w).2.cache = w.cache := by
  obtain ⟨hup, hget⟩ := h
  cases r with
  | userById id =>
    simp only [Read.key] at hget
    simp [Read.run, getUserById, initRedis_redisUp, hup, initRedis_cache, initRedis_store, hget]
  | allUsers =>
    simp only [Read.key] at hget
    simp [Read.run, getAllUsers, initRedis_redisUp, hup, initRedis_cache, initRedis_store, hget]
  | astrologerById id =>
    simp only [Read.key] at hget
    simp [Read.run, getAstrologerById, ensureRedisConnection_redisUp, hup,
      ensureRedisConnection_cache, ensureRedisConnection_store, hget]
  | allAstrologers q =>
    simp only [Read.key] at hget
    simp [Read.run, getAllAstrologers, ensureRedisConnection_redisUp, hup,
      ensureRedisConnection_cache, ensureRedisConnection_store, hget]
  | appointmentById id => exact absurd rfl (hr id)
  | allAppointments => exact absurd rfl hl

/-- C4 (defect): the cache holds a snapshot under the by-id key of a stored
appointment and a list under `allAppointments`, yet neither getAppointmentById
nor getAllAppointments sends a response: the callback that would serve the hit
is never called. -/
theorem appointment_read_hit_unanswered :
    cachedWorld.holds (Read.appointmentById sampleAppointment._id).key
      (.appointment sampleAppointment.toJSON) ∧
    (Read.appointmentById sampleAppointment._id).run cachedWorld = (none, cachedWorld) ∧
    cachedWorld.holds Read.allAppointments.key (.appointments [sampleAppointment.toJSON]) ∧
    Read.allAppointments.run cachedWorld = (none, cachedWorld) := by
  decide

/-- C8 (as stated, refuted): getAstrologerById with the id `a9`, a cache miss and
no record with that id answers 500, not 404: `a9` cannot be cast to an ObjectId
and the lookup throws. -/
theorem byId_malformed_counterexample :
    emptyWorld.misses (Entity.astrologer.byId "a9").key ∧
    Entity.astrologer.stored emptyWorld.store "a9" = false ∧
    ((Entity.astrologer.byId "a9").run emptyWorld).1 =
      some ⟨500, .failure "Error retrieving astrologer" (castError "a9" "_id" "Astro")⟩ := by
  decide

/-- C8 (amended): for getUserById and getAstrologerById with an id that is a
well-formed ObjectId, when the lookup of the entity's key misses and the store
has no record with that id, the response is 404 and the cache entries are
exactly those before the read: nothing is written under the key. -/
theorem byId_absent_not_cached (e : Entity) (id : String) (w : World)
    (he : e ≠ Entity.appointment) (hid : (castObjectId id).isSome = true)
    (hmiss : w.misses (e.byId id).key) (habsent : e.stored w.store id = false) :
    ((e.byId id).run w).1.map (fun r => r.status) = some 404 ∧
      ((e.byId id).run w).2.cache = w.cache ∧
      cacheGet ((e.byId id).run w).2.cache (e.byId id).key = none := by
  obtain ⟨hup, hget⟩ := hmiss
  obtain ⟨oid, hoid⟩ := Option.isSome_iff_exists.mp hid
  cases e with
  | user =>
    simp only [Entity.byId, Read.key] at hget
    have hfind : User.findById w.store id = .ok none := by
      simp only [Entity.stored, User.findById, hoid] at habsent ⊢
      cases hf : w.store.users.find? (fun u => u._id == oid) <;> simp_all [Except.toOption]
    simp [Entity.byId, Read.run, Read.key, getUserById, initRedis_redisUp, hup, initRedis_cache,
      initRedis_store, hget, hfind]
  | astrologer =>
    simp only [Entity.byId, Read.key] at hget
    have hfind : Astro.findById w.store id = .ok none := by
      simp only [Entity.stored, Astro.findById, hoid] at habsent ⊢
      cases hf : w.store.astros.find? (fun a => a._id == oid) <;> simp_all [Except.toOption]
    simp [Entity.byId, Read.run, Read.key, getAstrologerById, ensureRedisConnection_redisUp, hup,
      ensureRedisConnection_cache, ensureRedisConnection_store, hget, hfind]
  | appointment => exact absurd rfl he

theorem byId_absent_not_cached_witness :
    Entity.astrologer ≠ Entity.appointment ∧
    (castObjectId sampleAstro._id).isSome = true ∧
    emptyWorld.misses (Entity.astrologer.byId sampleAstro._id).key ∧
    Entity.astrologer.stored emptyWorld.store sampleAstro._id = false ∧
    ((Entity.astrologer.byId sampleAstro._id).run emptyWorld).1.map (fun r => r.status) =
      some 404 ∧
    ((Entity.astrologer.byId sampleAstro._id).run emptyWorld).2.cache = emptyWorld.cache ∧
    cacheGet ((Entity.astrologer.byId sampleAstro._id).run emptyWorld).2.cache
      (Entity.astrologer.byId sampleAstro._id).key = none :=
  ⟨by decide, by decide, by decide, by decide,
   byId_absent_not_cached Entity.astrologer sampleAstro._id emptyWorld (by decide) (by decide)
     (by decide) (by decide)⟩

/-- C9: in getAllAstrologers, two values of the isTopAstro query parameter (each
absent or any string) that derive the same cache key derive the same store
filter; and the key of a filtered list is never the key of the unfiltered list. -/
theorem filterKey_determines_filter (q1 q2 : Option String) :
    (filterKey q1 = filterKey q2 → storeFilter q1 = storeFilter q2) ∧
    (truthy q1 = true → filterKey q1 ≠ filterKey none) := by
  constructor
  · intro h
    cases h1 : truthy q1 <;> cases h2 : truthy q2
    · rw [storeFilter_falsy q1 h1, storeFilter_falsy q2 h2]
    · rw [filterKey_falsy q1 h1, filterKey_truthy q2 h2] at h
      exact absurd h (allAstrologers_ne_filtered _)
    · rw [filterKey_truthy q1 h1, filterKey_falsy q2 h2] at h
      exact absurd h.symm (allAstrologers_ne_filtered _)
    · rw [filterKey_truthy q1 h1, filterKey_truthy q2 h2] at h
      have hq := append_left_cancel _ _ _ h
      rw [storeFilter_truthy q1 h1, storeFilter_truthy q2 h2]
      cases q1 <;> cases q2 <;> simp_all [truthy]
  · intro h1 h
    rw [filterKey_truthy q1 h1, filterKey_falsy none rfl] at h
    exact allAstrologers_ne_filtered _ h.symm

theorem filterKey_determines_filter_witness :
    filterKey (some "true") = filterKey (some "true") ∧
    storeFilter (some "true") = storeFilter (some "true") ∧
    truthy (some "false") = true ∧ filterKey (some "false") ≠ filterKey none :=
  ⟨rfl, (filterKey_determines_filter (some "true") (some "true")).1 rfl, by decide,
   (filterKey_determines_filter (some "false") none).2 (by decide)⟩

/-- C2 (defect): after a successful updateAstrologer the list of top astrologers
cached before the update is still served.  The store holds the new name, the
read with `isTopAstro=true` answers 200 with the old one. -/
theorem updateAstrologer_filtered_list_stale :
    (updateAstrologer sampleAstro._id nameBody topListCachedWorld).1 =
      some ⟨200, .astro { sampleAstro with name := "Asha Rao" }.toJSON⟩ ∧
    Astro.find (updateAstrologer sampleAstro._id nameBody topListCachedWorld).2.store
        (some true) = [{ sampleAstro with name := "Asha Rao" }] ∧
    (getAllAstrologers (some "true")
        (updateAstrologer sampleAstro._id nameBody topListCachedWorld).2).1 =
      some ⟨200, .astros [sampleAstro.toJSON]⟩ := by
  decide

/-- C3 (defect): after a successful deleteAstrologer the list of top astrologers
cached before the delete is still served and still contains the deleted id,
while the store no longer has the record. -/
theorem deleteAstrologer_filtered_list_stale :
    (deleteAstrologer sampleAstro._id topListCachedWorld).1 =
      some ⟨200, .astroDeleted "Astrologer deleted successfully" sampleAstro.toJSON⟩ ∧
    Astro.findById (deleteAstrologer sampleAstro._id topListCachedWorld).2.store
        sampleAstro._id = .ok none ∧
    (getAllAstrologers (some "true")
        (deleteAstrologer sampleAstro._id topListCachedWorld).2).1 =
      some ⟨200, .astros [sampleAstro.toJSON]⟩ := by
  decide

/-- C7 (defect): with the Redis server out of reach createAstrologer persists the
astrologer and then sends no response, updateUser persists the merged user and
sends no response, and the reads of an astrologer and of a user send no
response instead of answering from the store. -/
theorem createAstrologer_cache_down_unanswered :
    (createAstrologer (sampleIds 0) nameBody peopleDownWorld).1 = none ∧
    (createAstrologer (sampleIds 0) nameBody peopleDownWorld).2.store.astros.map
        (fun a => a.name) = ["Asha", "Asha Rao"] ∧
    (updateUser sampleHash sampleUser._id promoteBody peopleDownWorld).1 = none ∧
    (updateUser sampleHash sampleUser._id promoteBody peopleDownWorld).2.store.users.map
        (fun u => u.role) = ["admin"] ∧
    (getAstrologerById sampleAstro._id peopleDownWorld).1 = none ∧
    (getUserById sampleUser._id peopleDownWorld).1 = none := by
  decide

/-- C5 (as stated, refuted): a batch of one candidate whose email is not in the
store (N = 1, K = 0) but who has no name creates no record: the `required`
validator of `name` rejects the save, the failure is reported in `failed` and
the store gains nothing. -/
theorem generateAstrologers_nameless_counterexample :
    emailTaken noEmailMatch emptyWorld.store namelessCandidate = false ∧
    (generateAstrologers noEmailMatch sampleIds (some [namelessCandidate]) emptyWorld).1 =
      some ⟨201, .astroBatch "0 astrologers registered successfully"
        ["Astro validation failed: name: Path `name` is required."] []⟩ ∧
    (generateAstrologers noEmailMatch sampleIds (some [namelessCandidate]) emptyWorld).2.store.astros
      = [] := by
  decide

/-- C5 (amended): for a non-empty batch of N candidates, with the cache reachable,
in which every candidate whose email is not taken carries a non-empty name, and
of which K have an email the store already answers with a document: the
response is 201, `astrologers` holds exactly N - K created records, `failed`
holds exactly K messages, the reported count is N - K, and the store ends with
exactly those N - K records appended. -/
theorem generateAstrologers_counts (em : Option String → AstroDoc → Bool) (genId : Nat → Id)
    (cands : List AstroCandidate) (w : World) (hne : cands ≠ []) (hup : w.redisUp = true)
    (hvalid : ∀ c ∈ cands, emailTaken em w.store c = false → requiredString c.name = true) :
    ∃ (created : List AstroDoc) (failed : List String),
      (generateAstrologers em genId (some cands) w).1 =
        some ⟨201, .astroBatch
          (toString (cands.length - cands.countP (emailTaken em w.store)) ++
            " astrologers registered successfully")
          failed (created.map AstroDoc.toJSON)⟩ ∧
      created.length = cands.length - cands.countP (emailTaken em w.store) ∧
      failed.length = cands.countP (emailTaken em w.store) ∧
      (generateAstrologers em genId (some cands) w).2.store.astros = w.store.astros ++ created := by
  obtain ⟨hlen, hrej⟩ := settleAstros_counts em w.store genId cands 0 hvalid
  have hcreated : (fulfilled (settleAstros em w.store genId 0 cands)).length =
      cands.length - cands.countP (emailTaken em w.store) := by omega
  refine ⟨fulfilled (settleAstros em w.store genId 0 cands),
    rejected (settleAstros em w.store genId 0 cands), ?_, hcreated, hrej, ?_⟩
  · cases cands with
    | nil => exact absurd rfl hne
    | cons c cs =>
      rw [← hcreated]
      simp only [generateAstrologers, ensureRedisConnection_redisUp, hup]
      rfl
  · cases cands with
    | nil => exact absurd rfl hne
    | cons c cs =>
      simp only [generateAstrologers, ensureRedisConnection_redisUp, hup]
      simp [ensureRedisConnection_store]

theorem generateAstrologers_counts_witness :
    [takenCandidate, freshCandidate] ≠ [] ∧ peopleWorld.redisUp = true ∧
    (∀ c ∈ [takenCandidate, freshCandidate],
      emailTaken sampleEmailMatch peopleWorld.store c = false → requiredString c.name = true) ∧
    [takenCandidate, freshCandidate].countP (emailTaken sampleEmailMatch peopleWorld.store) = 1 ∧
    ∃ (created : List AstroDoc) (failed : List String),
      (generateAstrologers sampleEmailMatch sampleIds
          (some [takenCandidate, freshCandidate]) peopleWorld).1 =
        some ⟨201, .astroBatch
          (toString ([takenCandidate, freshCandidate].length -
              [takenCandidate, freshCandidate].countP
                (emailTaken sampleEmailMatch peopleWorld.store)) ++
            " astrologers registered successfully")
          failed (created.map AstroDoc.toJSON)⟩ ∧
      created.length = [takenCandidate, freshCandidate].length -
        [takenCandidate, freshCandidate].countP
          (emailTaken sampleEmailMatch peopleWorld.store) ∧
      failed.length = [takenCandidate, freshCandidate].countP
        (emailTaken sampleEmailMatch peopleWorld.store) ∧
      (generateAstrologers sampleEmailMatch sampleIds
          (some [takenCandidate, freshCandidate]) peopleWorld).2.store.astros =
        peopleWorld.store.astros ++ created :=
  ⟨by decide, by decide, by decide, by decide,
   generateAstrologers_counts sampleEmailMatch sampleIds [takenCandidate, freshCandidate]
     peopleWorld (by decide) (by decide) (by decide)⟩

/-- C6 (defect): a batch of two users of which the first has the email of a stored
user and the second a new one is answered with 500 and the reason of the first
failure; the response carries neither a count nor the created users, although
the second user has been saved. -/
theorem generateUsers_mixed_batch_500 :
    (User.findOne peopleWorld.store (some "uma@example.com")).isSome = true ∧
    (User.findOne peopleWorld.store (some "ravi@example.com")).isSome = false ∧
    (generateUsers sampleHash sampleIds (some mixedUsers) peopleWorld).1 =
      some ⟨500, .failure "Error generating users"
        "User with email uma@example.com already exists."⟩ ∧
    (generateUsers sampleHash sampleIds (some mixedUsers) peopleWorld).2.store.users.map
        (fun u => u.email) = ["uma@example.com", "ravi@example.com"] := by
  decide

/-- C10 (as stated, refuted): a booking of a stored astrologer by a stored user
that carries no appointmentDate is answered with 500 and persists nothing: the
schema requires the date, so no appointment with status pending exists and no
list can contain it. -/
theorem createAppointment_undated_counterexample :
    (createAppointment sampleDate sampleAppointment._id undatedBooking peopleWorld).1 =
      some ⟨500, .failure "Failed to create appointment"
        "Appointment validation failed: Path is required."⟩ ∧
    (createAppointment sampleDate sampleAppointment._id undatedBooking peopleWorld).2.store.appointments
      = [] ∧
    Appointment.findAll
      (createAppointment sampleDate sampleAppointment._id undatedBooking peopleWorld).2.store
      = [] := by
  decide

/-- C10 (amended): for every body whose userId and astroId are well-formed
ObjectIds and whose appointmentDate denotes a date (whatever status the body
carries) and every prior cache state: the answer is 201 with the saved
document, the appointment is persisted with status pending, and when the
userId names a stored user and the astroId a stored astrologer the populated
list query of getAllAppointments, evaluated on the store after the create,
contains the new appointment with the user's name and email and the
astrologer's name and specialization embedded. -/
theorem createAppointment_pending_populated (toDate : String → Option String)
    (newId uid aid date uo ao iso : String) (b : AppointmentBody) (w : World)
    (hu : b.userId = some uid) (ha : b.astroId = some aid) (hd : b.appointmentDate = some date)
    (hcu : castObjectId uid = some uo) (hca : castObjectId aid = some ao)
    (hcd : toDate date = some iso) :
    (createAppointment toDate newId b w).1 =
      some ⟨201, .appointment (AppointmentDoc.mk newId uo ao iso "pending").toJSON⟩ ∧
    (createAppointment toDate newId b w).2.store.appointments =
      w.store.appointments ++ [AppointmentDoc.mk newId uo ao iso "pending"] ∧
    ∀ (u : UserDoc) (a : AstroDoc), User.findById w.store uid = .ok (some u) →
      Astro.findById w.store aid = .ok (some a) →
      AppointmentView.mk newId (.populated ⟨uo, u.name, u.email⟩)
          (.populated ⟨ao, a.name, a.specialization⟩) iso "pending" ∈
        Appointment.findAll (createAppointment toDate newId b w).2.store := by
  have hcreate : Appointment.create toDate newId b =
      .ok (AppointmentDoc.mk newId uo ao iso "pending") := by
    simp [Appointment.create, hu, ha, hd, hcu, hca, hcd]
  have hw : createAppointment toDate newId b w =
      (some ⟨201, .appointment (AppointmentDoc.mk newId uo ao iso "pending").toJSON⟩,
       { w with store := { w.store.tick with
                           appointments := w.store.appointments ++
                             [AppointmentDoc.mk newId uo ao iso "pending"] } }) := by
    simp [createAppointment, hcreate]
  rw [hw]
  refine ⟨rfl, rfl, ?_⟩
  intro u a hus has
  obtain ⟨uo', hcu', hfu, huid⟩ := userFindById_ok _ _ _ hus
  obtain ⟨ao', hca', hfa, haid⟩ := astroFindById_ok _ _ _ has
  have e1 : uo' = uo := Option.some.inj (hcu'.symm.trans hcu)
  have e2 : ao' = ao := Option.some.inj (hca'.symm.trans hca)
  subst e1 e2
  simp [Appointment.findAll, Store.tick, populateAppointment, populateUserId, populateAstroId,
    hfu, hfa, huid, haid]

theorem createAppointment_pending_populated_witness :
    sampleBooking.userId = some sampleUser._id ∧
    castObjectId sampleUser._id = some sampleUser._id ∧
    castObjectId sampleAstro._id = some sampleAstro._id ∧
    sampleDate "2025-01-01" = some "2025-01-01T00:00:00.000Z" ∧
    (createAppointment sampleDate sampleAppointment._id sampleBooking peopleWorld).1 =
      some ⟨201, .appointment sampleAppointment.toJSON⟩ ∧
    (createAppointment sampleDate sampleAppointment._id sampleBooking peopleWorld).2.store.appointments
      = peopleWorld.store.appointments ++ [sampleAppointment] ∧
    AppointmentView.mk sampleAppointment._id
        (.populated ⟨sampleUser._id, "Uma", "uma@example.com"⟩)
        (.populated ⟨sampleAstro._id, "Asha", some "vedic"⟩)
        "2025-01-01T00:00:00.000Z" "pending" ∈
      Appointment.findAll
        (createAppointment sampleDate sampleAppointment._id sampleBooking peopleWorld).2.store :=
  have h := createAppointment_pending_populated sampleDate sampleAppointment._id
    sampleUser._id sampleAstro._id "2025-01-01" sampleUser._id sampleAstro._id
    "2025-01-01T00:00:00.000Z" sampleBooking peopleWorld (by decide) (by decide) (by decide)
    (by decide) (by decide) (by decide)
  ⟨by decide, by decide, by decide, by decide, h.1, h.2.1,
   h.2.2 sampleUser sampleAstro (by decide) (by decide)⟩

/-- C11 (as stated, refuted): a body that supplies the non-empty role `superadmin`
is refused by the enum validator of `role` at `save()`: the answer is 500 and the
stored role is still `user`, not the supplied value. -/
theorem updateUser_bad_role_counterexample :
    User.findById peopleWorld.store sampleUser._id = .ok (some sampleUser) ∧
    (updateUser sampleHash sampleUser._id badRoleBody peopleWorld).1 =
      some ⟨500, .failure "Error updating user"
        "User validation failed: role: is not a valid enum value for path `role`."⟩ ∧
    User.findById (updateUser sampleHash sampleUser._id badRoleBody peopleWorld).2.store
        sampleUser._id = .ok (some sampleUser) ∧
    sampleUser.role = "user" := by
  decide

/-- C11 (amended): for every stored user and every updateUser body whose save is
accepted (the role it sets passes the enum validator and the email it sets is
not held by another user): each of name, email, password and role that the body
does not supply keeps its stored value, each of name, email and role that the
body supplies as a non-empty value takes exactly that value, and the id and
assignedAstrologer are unchanged. -/
theorem updateUser_merges (hash : String → String) (userId : Id) (b : UserBody) (w : World)
    (u : UserDoc) (hfind : User.findById w.store userId = .ok (some u))
    (hsave : User.saveCheck w.store.users u (u.merge hash b) = .ok ()) :
    ∃ u', User.findById (updateUser hash userId b w).2.store userId = .ok (some u') ∧
      u'._id = u._id ∧ u'.assignedAstrologer = u.assignedAstrologer ∧
      (b.name = none → u'.name = u.name) ∧ (b.email = none → u'.email = u.email) ∧
      (b.password = none → u'.password = u.password) ∧ (b.role = none → u'.role = u.role) ∧
      (∀ v, b.name = some v → v ≠ "" → u'.name = v) ∧
      (∀ v, b.email = some v → v ≠ "" → u'.email = v) ∧
      (∀ v, b.role = some v → v ≠ "" → u'.role = v) := by
  obtain ⟨oid, hcast, hlook, hid⟩ := userFindById_ok _ _ _ hfind
  refine ⟨u.merge hash b, ?_, rfl, rfl, ?_, ?_, ?_, ?_, ?_, ?_, ?_⟩
  · rw [User.findById, hcast]
    simp only []
    rw [updateUser_store hash userId b w u hfind hsave, hid]
    exact congrArg Except.ok (find_replaceUser oid (u.merge hash b) hid _ u hlook)
  · intro h; simp [UserDoc.merge, h, truthy]
  · intro h; simp [UserDoc.merge, h, truthy]
  · intro h; simp [UserDoc.merge, h, truthy]
  · intro h; simp [UserDoc.merge, h, truthy]
  · intro v h hv; simp [UserDoc.merge, h, truthy, hv]
  · intro v h hv; simp [UserDoc.merge, h, truthy, hv]
  · intro v h hv; simp [UserDoc.merge, h, truthy, hv]

theorem updateUser_merges_witness :
    User.findById peopleWorld.store sampleUser._id = .ok (some sampleUser) ∧
    User.saveCheck peopleWorld.store.users sampleUser (sampleUser.merge sampleHash promoteBody) =
      .ok () ∧
    ∃ u', User.findById
        (updateUser sampleHash sampleUser._id promoteBody peopleWorld).2.store sampleUser._id =
        .ok (some u') ∧
      u'._id = sampleUser._id ∧ u'.assignedAstrologer = sampleUser.assignedAstrologer ∧
      (promoteBody.name = none → u'.name = sampleUser.name) ∧
      (promoteBody.email = none → u'.email = sampleUser.email) ∧
      (promoteBody.password = none → u'.password = sampleUser.password) ∧
      (promoteBody.role = none → u'.role = sampleUser.role) ∧
      (∀ v, promoteBody.name = some v → v ≠ "" → u'.name = v) ∧
      (∀ v, promoteBody.email = some v → v ≠ "" → u'.email = v) ∧
      (∀ v, promoteBody.role = some v → v ≠ "" → u'.role = v) :=
  ⟨by decide, by decide,
   updateUser_merges sampleHash sampleUser._id promoteBody peopleWorld sampleUser (by decide)
     (by decide)⟩

/-- C12 (defect): a valid status update of an existing appointment writes the
store and then answers 500, because the cache write is a call of a method the
client does not have: nothing is written under the appointment's key, and the
read by id that follows sends no response. -/
theorem updateAppointmentStatus_valid_500 :
    Appointment.findById bookedWorld.store sampleAppointment._id =
      .ok (some sampleAppointment) ∧
    (updateAppointmentStatus sampleAppointment._id (some "approved") bookedWorld).1 =
      some ⟨500, .failure "Failed to update appointment"
        "redisClient.setex is not a function"⟩ ∧
    (updateAppointmentStatus sampleAppointment._id (some "approved")
        bookedWorld).2.store.appointments =
      [{ sampleAppointment with status := "approved" }] ∧
    cacheGet (updateAppointmentStatus sampleAppointment._id (some "approved") bookedWorld).2.cache
        ("appointment:" ++ sampleAppointment._id) = none ∧
    (getAppointmentById sampleAppointment._id
        (updateAppointmentStatus sampleAppointment._id (some "approved") bookedWorld).2).1 =
      none := by
  decide

/-- C13: for all ids and every value of the isTopAstro parameter the seven kinds
of cache key (user, astrologer and appointment by id, the three unfiltered
lists and the filtered astrologer list) are pairwise different; the filtered key
is the one getAllAstrologers derives from a non-empty parameter; and each of the
three by-id keys determines its id. -/
theorem cache_keys_distinct (i j k q : String) :
    List.Pairwise (fun a b => a ≠ b)
      [Read.key (.userById i), Read.key (.astrologerById j), Read.key (.appointmentById k),
       Read.key .allUsers, Read.key (.allAstrologers none),
       "allAstrologers:isTopAstro:" ++ q, Read.key .allAppointments] ∧
    (q ≠ "" → Read.key (.allAstrologers (some q)) = "allAstrologers:isTopAstro:" ++ q) ∧
    (Read.key (.userById i) = Read.key (.userById j) → i = j) ∧
    (Read.key (.astrologerById i) = Read.key (.astrologerById j) → i = j) ∧
    (Read.key (.appointmentById i) = Read.key (.appointmentById j) → i = j) := by
  have hu : 5 ≤ "user:".length := by decide
  have ha : 5 ≤ "astrologer:".length := by decide
  have hp : 5 ≤ "appointment:".length := by decide
  have hf : 5 ≤ "allAstrologers:isTopAstro:".length := by decide
  refine ⟨?_, ?_, ?_, ?_, ?_⟩
  · rw [show Read.key (.allAstrologers none) = "allAstrologers" from rfl]
    simp only [Read.key, List.pairwise_cons, List.mem_cons, List.mem_singleton, forall_eq_or_imp,
      forall_eq, List.not_mem_nil, List.Pairwise.nil, and_true, IsEmpty.forall_iff, implies_true]
    repeat' constructor
    all_goals first
      | exact allAstrologers_ne_filtered _
      | (apply ne_of_keyHead_ne
         try simp only [keyHead_append _ _ hu, keyHead_append _ _ ha, keyHead_append _ _ hp,
           keyHead_append _ _ hf]
         decide)
  · intro hq
    exact filterKey_truthy (some q) (by simp [truthy, hq])
  · exact append_left_cancel _ _ _
  · exact append_left_cancel _ _ _
  · exact append_left_cancel _ _ _

theorem cache_keys_distinct_witness :
    List.Pairwise (fun a b => a ≠ b)
      [Read.key (.userById "x1"), Read.key (.astrologerById "x1"),
       Read.key (.appointmentById "x1"), Read.key .allUsers, Read.key (.allAstrologers none),
       "allAstrologers:isTopAstro:" ++ "true", Read.key .allAppointments] ∧
    Read.key (.allAstrologers (some "true")) = "allAstrologers:isTopAstro:" ++ "true" ∧
    Read.key (.userById "x1") ≠ Read.key (.userById "x2") :=
  ⟨(cache_keys_distinct "x1" "x1" "x1" "true").1,
   (cache_keys_distinct "x1" "x1" "x1" "true").2.1 (by decide),
   fun h => absurd ((cache_keys_distinct "x1" "x2" "x1" "true").2.2.1 h) (by decide)⟩

end AstroMeet
